import Mathlib

/-!
Verification development for the self-improving RAG pipeline
(gap detection, workflow orchestration, response processing, knowledge update).

The JavaScript sources are shallowly embedded: pure logic is translated to
executable Lean functions; external effects (vector store, LLM calls, SMTP and
Slack dispatch, the file system and wall-clock time) are passed in explicitly
as environment parameters or timestamps.  JavaScript numbers holding
confidence or similarity scores are modelled as rationals; millisecond
timestamps are integers.
-/

namespace RagImprover

/-! ## Configuration constants (config.js) -/

/-- config.knowledgeGap.similarityThreshold. -/
def similarityThresholdConfig : ℚ := 75 / 100

/-- config.agentWorkflow.retryAttempts. -/
def retryAttemptsConfig : Nat := 3

/-- config.safety.rateLimit.updatesPerHour. -/
def updatesPerHourConfig : Nat := 10

/-! ## Character classes and pattern matchers (InformationProcessor)

The regular expressions from detectPII, checkProhibitedPatterns and
config.safety.prohibitedPatterns are implemented as executable existence
matchers over character lists, with JavaScript word-boundary semantics
made explicit. -/

/-- JavaScript regex word character class (\w): ASCII alphanumeric or underscore. -/
def isWordChar (c : Char) : Bool := c.isAlphanum || c = '_'

/-- Character class of the local part of the email pattern. -/
def isLocalChar (c : Char) : Bool :=
  c.isAlphanum || c = '.' || c = '_' || c = '%' || c = '+' || c = '-'

/-- Character class of the domain part of the email pattern. -/
def isDomainChar (c : Char) : Bool := c.isAlphanum || c = '.' || c = '-'

/-- A word boundary holds between the previous character (none at the string
start) and the current one when their word-character statuses differ. -/
def atBoundary (prev : Option Char) (c : Char) : Bool :=
  match prev with
  | none => isWordChar c
  | some p => isWordChar p != isWordChar c

/-- Top-level-domain tail of the email pattern: two or more characters of the
class written in the source followed by a word boundary. -/
def emailTldMatch (l : List Char) : Bool :=
  let run := l.takeWhile (fun c => c.isAlpha || c = '|')
  let n := run.length
  (List.range (n + 1)).any (fun k =>
    decide (2 ≤ k) &&
    (match run.get? (k - 1), l.get? k with
     | some lc, some nc => isWordChar lc != isWordChar nc
     | some lc, none => isWordChar lc
     | none, _ => false))

/-- Search for a domain followed by a dot and a valid TLD tail; the boolean
records whether at least one domain character precedes the candidate dot. -/
def emailDomainSearch : Bool → List Char → Bool
  | _, [] => false
  | seen, c :: rest =>
    if c = '.' then
      (seen && emailTldMatch rest) || emailDomainSearch true rest
    else if isDomainChar c then
      emailDomainSearch true rest
    else
      false

/-- Try to match the email pattern starting exactly at the head of the list
(the '@' forces maximal munch of the local part). -/
def emailMatchAt (l : List Char) : Bool :=
  let loc := l.takeWhile isLocalChar
  decide (1 ≤ loc.length) &&
  (match l.drop loc.length with
   | '@' :: rest => emailDomainSearch false rest
   | _ => false)

/-- Scan every position that sits on a word boundary with a position matcher. -/
def scanWith (m : List Char → Bool) : Option Char → List Char → Bool
  | _, [] => false
  | prev, c :: rest => (atBoundary prev c && m (c :: rest)) || scanWith m (some c) rest

/-- detectPII email pattern as a whole-string test. -/
def hasEmailPattern (s : String) : Bool := scanWith emailMatchAt none s.data

/-- detectPII phone pattern: the mandatory part is ten or more consecutive
digits, so a match exists exactly when such a digit run exists. -/
def hasPhonePattern (s : String) : Bool :=
  decide (10 ≤ (s.data.foldl
    (fun p c => if c.isDigit then (p.1 + 1, max p.2 (p.1 + 1)) else (0, p.2))
    ((0 : Nat), (0 : Nat))).2)

/-- detectPII ssn pattern at a position: three digits, dash, two digits, dash,
four digits, then a word boundary. -/
def ssnMatchAt (l : List Char) : Bool :=
  match l with
  | a :: b :: c :: '-' :: d :: e :: '-' :: f :: g :: h :: i :: rest =>
    [a, b, c, d, e, f, g, h, i].all Char.isDigit &&
    (match rest with
     | [] => true
     | x :: _ => !isWordChar x)
  | _ => false

/-- Whole-string test for the ssn pattern. -/
def hasSsnPattern (s : String) : Bool := scanWith ssnMatchAt none s.data

/-- Consume exactly four digits. -/
def ccDigits4 (l : List Char) : Option (List Char) :=
  match l with
  | a :: b :: c :: d :: rest =>
    if [a, b, c, d].all Char.isDigit then some rest else none
  | _ => none

/-- Alternatives for the optional dash-or-space separator between card groups. -/
def ccSepAlternatives (l : List Char) : List (List Char) :=
  match l with
  | c :: rest => if c = '-' || c = ' ' then [rest, l] else [l]
  | [] => [l]

/-- Remaining groups of the card pattern after the first four digits, ending
at a word boundary. -/
def ccTail : Nat → List Char → Bool
  | 0, l =>
    (match l with
     | [] => true
     | x :: _ => !isWordChar x)
  | n + 1, l =>
    (ccSepAlternatives l).any (fun l2 =>
      match ccDigits4 l2 with
      | some rest => ccTail n rest
      | none => false)

/-- detectPII creditCard pattern at a position. -/
def ccMatchAt (l : List Char) : Bool :=
  match ccDigits4 l with
  | some rest => ccTail 3 rest
  | none => false

/-- Whole-string test for the creditCard pattern. -/
def hasCreditCardPattern (s : String) : Bool := scanWith ccMatchAt none s.data

/-- Contiguous-sublist test on character lists. -/
def listContainsSub (needle hay : List Char) : Bool :=
  hay.tails.any (fun t => needle.isPrefixOf t)

/-- Case-insensitive substring test, used for the case-insensitive literal
patterns of config.safety.prohibitedPatterns and the recency keyword test. -/
def containsCI (needle : String) (hay : String) : Bool :=
  listContainsSub (needle.data.map Char.toLower) (hay.data.map Char.toLower)

/-- The api key pattern allows an optional underscore or dash separator. -/
def matchesApiKeyPattern (s : String) : Bool :=
  containsCI "apikey" s || containsCI "api_key" s || containsCI "api-key" s

/-! ## InformationProcessor.detectPII and checkProhibitedPatterns -/

structure PiiCheck where
  hasPII : Bool
  types : List String
  warnings : List String
  deriving Repr, DecidableEq

/-- InformationProcessor.detectPII.  Match multiplicity of the global regexes
is abstracted to presence: each detected pattern category contributes one
warning line (the source interpolates the match count into the same line). -/
def detectPII (text : String) : PiiCheck :=
  let hits :=
    (if hasEmailPattern text then ["email"] else []) ++
    (if hasPhonePattern text then ["phone"] else []) ++
    (if hasSsnPattern text then ["ssn"] else []) ++
    (if hasCreditCardPattern text then ["creditCard"] else [])
  { hasPII := !hits.isEmpty
    types := hits
    warnings := hits.map (fun t => "Found potential " ++ t ++ " pattern(s)") }

structure ProhibitedCheck where
  hasProhibited : Bool
  patterns : List String
  deriving Repr, DecidableEq

/-- InformationProcessor.checkProhibitedPatterns over
config.safety.prohibitedPatterns; on a hit the pattern source is reported. -/
def checkProhibitedPatterns (text : String) : ProhibitedCheck :=
  let hits :=
    (if containsCI "password" text then ["password"] else []) ++
    (if containsCI "secret" text then ["secret"] else []) ++
    (if containsCI "confidential" text then ["confidential"] else []) ++
    (if matchesApiKeyPattern text then ["api[_-]?key"] else [])
  { hasProhibited := !hits.isEmpty
    patterns := hits }

/-! ## InformationProcessor.validateInformation -/

structure ValidationResult where
  isValid : Bool
  errors : List String
  warnings : List String
  characterCount : Nat
  wordCount : Nat
  deriving Repr, DecidableEq

/-- InformationProcessor.validateInformation.  The input is always a string in
this model, so the missing-or-not-a-string error cannot arise; the word count
(split on whitespace) is carried along as in the source. -/
def validateInformation (information : String) : ValidationResult :=
  let piiCheck := detectPII information
  let prohibitedCheck := checkProhibitedPatterns information
  let errors :=
    (if information.length < 10 then
      ["Information is too short to be useful"] else []) ++
    (if 50000 < information.length then
      ["Information is too long (exceeds 50,000 characters)"] else []) ++
    (if piiCheck.hasPII then
      ["Potentially sensitive information detected: " ++
        String.intercalate ", " piiCheck.types] else []) ++
    (if prohibitedCheck.hasProhibited then
      ["Prohibited content detected: " ++
        String.intercalate ", " prohibitedCheck.patterns] else [])
  { isValid := errors.isEmpty
    errors := errors
    warnings := piiCheck.warnings
    characterCount := information.length
    wordCount := (information.split Char.isWhitespace).length }

/-! ## InformationProcessor: structured extraction

The LLM structuring call is an external capability; its outcome is passed in
as an environment value.  Some StructuredInfo means the model call succeeded
and parseStructuredResponse produced this normalized object; none means the
call or the parse failed, in which case the source falls back to the
deterministic heuristic extractor. -/

structure Procedure where
  step : Nat
  description : String
  deriving Repr, DecidableEq

structure StructuredInfo where
  title : String
  summary : String
  mainContent : String
  category : String
  keywords : List String
  procedures : List Procedure
  links : List String
  confidence : ℚ
  deriving Repr, DecidableEq

structure ExtractionResult where
  success : Bool
  structuredInfo : Option StructuredInfo
  extractionMethod : String
  deriving Repr, DecidableEq

/-- Stop words of InformationProcessor.extractBasicKeywords. -/
def stopWords : List String :=
  ["the", "a", "an", "and", "or", "but", "in", "on", "at", "to", "for",
   "of", "with", "by"]

/-- Keep the first occurrence of each word, preserving order, as the
indexOf-based duplicate filter of the source does. -/
def dedupFirst (l : List String) : List String :=
  l.foldl (fun acc w => if acc.contains w then acc else acc ++ [w]) []

/-- InformationProcessor.extractBasicKeywords on the lowercased whitespace
split of the reply. -/
def extractBasicKeywords (words : List String) : List String :=
  (dedupFirst (words.filter (fun w => decide (3 < w.length) && !stopWords.contains w))).take 10

/-- InformationProcessor.extractLinks: every maximal non-whitespace run that
starts with an http or https scheme. -/
def extractLinksAux : List Char → List String
  | [] => []
  | c :: rest =>
    if "http://".data.isPrefixOf (c :: rest) || "https://".data.isPrefixOf (c :: rest) then
      String.mk ((c :: rest).takeWhile (fun x => !x.isWhitespace)) :: extractLinksAux rest
    else
      extractLinksAux rest

def extractLinks (text : String) : List String := extractLinksAux text.data

/-- InformationProcessor.fallbackExtraction: deterministic heuristic
extraction with a fixed conservative confidence of 0.6. -/
def fallbackExtraction (information originalQuery : String) : ExtractionResult :=
  let title :=
    if 50 < originalQuery.length then originalQuery.take 47 ++ "..." else originalQuery
  { success := true
    structuredInfo := some
      { title := title
        summary := information.take 200 ++ "..."
        mainContent := information
        category := "general"
        keywords := extractBasicKeywords ((information.toLower).split Char.isWhitespace)
        procedures := []
        links := extractLinks information
        confidence := 6 / 10 }
    extractionMethod := "fallback" }

/-- InformationProcessor.extractStructuredInformation: LLM-assisted structuring
with heuristic fallback on call or parse failure. -/
def extractStructuredInformation (env : Option StructuredInfo)
    (information originalQuery : String) : ExtractionResult :=
  match env with
  | some si => { success := true, structuredInfo := some si, extractionMethod := "llm" }
  | none => fallbackExtraction information originalQuery

/-! ## InformationProcessor: chunk generation, conflicts, recommendations -/

structure DocChunk where
  content : String
  contentType : String
  deriving Repr, DecidableEq

/-- InformationProcessor.generateDocumentChunks: one chunk for the main body
and one additional procedure chunk when procedural steps exist. -/
def generateDocumentChunks (si : StructuredInfo) : List DocChunk :=
  let mainChunk : DocChunk := { content := si.mainContent, contentType := "expert_response" }
  if si.procedures.isEmpty then
    [mainChunk]
  else
    let procedureContent := String.intercalate "\n"
      (si.procedures.map (fun p => "Step " ++ toString p.step ++ ": " ++ p.description))
    [mainChunk,
     { content := si.title ++ " - Procedure:\n" ++ procedureContent
       contentType := "procedure" }]

structure ConflictAnalysis where
  hasConflicts : Bool
  deriving Repr, DecidableEq

/-- InformationProcessor.analyzeConflicts is a stub in the source: it always
reports no conflicts (recommendedAction add_new). -/
def analyzeConflicts : ConflictAnalysis := { hasConflicts := false }

structure UpdateRecommendations where
  action : String
  priority : String
  requiresHumanReview : Bool
  notes : List String
  deriving Repr, DecidableEq

/-- InformationProcessor.generateUpdateRecommendations. -/
def generateUpdateRecommendations (confidence : ℚ) (category : String)
    (hasConflicts : Bool) (chunkCount : Nat) : UpdateRecommendations :=
  let priority1 := if (9 : ℚ) / 10 < confidence then "high" else "medium"
  let review := hasConflicts
  let priority2 := if category = "HR" || category = "IT" then "high" else priority1
  let notes :=
    (if (9 : ℚ) / 10 < confidence then
      ["High confidence information - prioritize for immediate addition"] else []) ++
    (if hasConflicts then
      ["Conflicts detected - human review required before integration"] else []) ++
    (if category = "HR" || category = "IT" then
      ["Critical department information - high priority for integration"] else []) ++
    (if 1 < chunkCount then
      ["Multiple document types generated - consider separate integration"] else [])
  { action := "add_to_knowledge_base"
    priority := priority2
    requiresHumanReview := review
    notes := notes }

/-! ## InformationProcessor.processReceivedInformation -/

structure ExpertResponse where
  requestId : String
  workflowId : String
  originalQuery : String
  content : String
  deriving Repr, DecidableEq

structure ProcessingResult where
  status : String
  success : Bool := false
  validation : Option ValidationResult := none
  extraction : Option ExtractionResult := none
  documentChunks : Option (List DocChunk) := none
  conflictAnalysis : Option ConflictAnalysis := none
  recommendations : Option UpdateRecommendations := none
  error : Option String := none
  deriving Repr, DecidableEq

/-- InformationProcessor.processReceivedInformation.  The early returns leave
later fields unset (undefined in the source), modelled by none; in particular
the success flag of an early return is falsy. -/
def processReceivedInformation (extractEnv : Option StructuredInfo)
    (response : ExpertResponse) : ProcessingResult :=
  let validation := validateInformation response.content
  if !validation.isValid then
    { status := "validation_failed"
      validation := some validation
      error := some (String.intercalate ", " validation.errors) }
  else
    let extraction := extractStructuredInformation extractEnv response.content response.originalQuery
    if !extraction.success then
      { status := "extraction_failed"
        validation := some validation
        extraction := some extraction
        error := some "extraction failed" }
    else
      match extraction.structuredInfo with
      | none =>
        { status := "extraction_failed"
          validation := some validation
          extraction := some extraction
          error := some "extraction failed" }
      | some si =>
        let chunks := generateDocumentChunks si
        let conflict := analyzeConflicts
        let recs := generateUpdateRecommendations si.confidence si.category
          conflict.hasConflicts chunks.length
        { status := "completed"
          success := true
          validation := some validation
          extraction := some extraction
          documentChunks := some chunks
          conflictAnalysis := some conflict
          recommendations := some recs }

/-! ## KnowledgeUpdater

updateKnowledgeBase is modelled as a function from the processed information,
the loaded update history, the current time and the configuration to an
outcome carrying the terminal status and an ordered trace of the pipeline
steps that actually executed.  The vector store backup and the vector
database insertion are external calls whose success is supplied by an
environment record.  Trace entries: validation, approval_request, backup,
conflict_resolution, vector_db_update, metadata_update, save_update_log. -/

/-- An entry of the persisted update history, reduced to the timestamps the
rate limiter reads (completedAt when present, else requestedAt). -/
structure UpdateHistoryEntry where
  requestedAt : Int
  completedAt : Option Int := none
  deriving Repr, DecidableEq

/-- The update-time timestamp the rate-limit filter compares. -/
def entryTime (u : UpdateHistoryEntry) : Int := u.completedAt.getD u.requestedAt

/-- Updates recorded within the rolling hour before now (milliseconds). -/
def recentUpdatesCount (history : List UpdateHistoryEntry) (now : Int) : Nat :=
  (history.filter (fun u => now - 3600000 < entryTime u)).length

structure UpdValidation where
  isValid : Bool
  errors : List String
  warnings : List String
  deriving Repr, DecidableEq

/-- KnowledgeUpdater.validateUpdate on a ProcessingResult, mirroring the
checks in source order: processed-info success, chunk presence, extraction
confidence (warn below 0.5, reject below 0.3), validation issues carried in
the processed info, and the rolling-hour rate limit. -/
def validateUpdate (pi : ProcessingResult) (history : List UpdateHistoryEntry)
    (now : Int) (updatesPerHourLimit : Nat) : UpdValidation :=
  let successErrors :=
    if !pi.success then ["Processed information is invalid or unsuccessful"] else []
  let chunkErrors :=
    match pi.documentChunks with
    | none => ["No document chunks available for update"]
    | some cs => if cs.isEmpty then ["No document chunks available for update"] else []
  let confWarnings :=
    match pi.extraction with
    | some ex =>
      match ex.structuredInfo with
      | some si => if si.confidence < 1 / 2 then ["Low confidence level"] else []
      | none => []
    | none => []
  let confErrors :=
    match pi.extraction with
    | some ex =>
      match ex.structuredInfo with
      | some si =>
        if si.confidence < 3 / 10 then
          ["Confidence level too low for automatic update"] else []
      | none => []
    | none => []
  let validationErrors :=
    match pi.validation with
    | some v =>
      if !v.isValid then
        ["Validation issues: " ++ String.intercalate ", " v.errors] else []
    | none => []
  let rateErrors :=
    if updatesPerHourLimit ≤ recentUpdatesCount history now then
      ["Rate limit exceeded: too many updates in the last hour"] else []
  let errors := successErrors ++ chunkErrors ++ confErrors ++ validationErrors ++ rateErrors
  { isValid := errors.isEmpty
    errors := errors
    warnings := confWarnings }

structure UpdConfig where
  requireHumanApproval : Bool
  backupEnabled : Bool
  conflictResolution : String
  updatesPerHourLimit : Nat
  deriving Repr, DecidableEq

structure UpdEnv where
  approvedOption : Bool
  backupSucceeds : Bool
  vectorSucceeds : Bool
  deriving Repr, DecidableEq

structure UpdateOutcome where
  success : Bool
  status : String
  trace : List String
  errors : List String
  deriving Repr, DecidableEq

/-- KnowledgeUpdater.resolveConflicts: auto_merge currently behaves as
create_new, human_review logs and reports an escalation marker, create_new
tags a superseding document; an unknown strategy throws, caught as failure. -/
def resolveConflicts (conflictResolution : String) : Bool × String :=
  if conflictResolution = "auto_merge" then (true, "created_new_document")
  else if conflictResolution = "human_review" then (true, "escalated_to_human_review")
  else if conflictResolution = "create_new" then (true, "created_new_document")
  else (false, "Unknown conflict resolution strategy")

/-- KnowledgeUpdater.updateKnowledgeBase.  Each early return carries the
terminal status of the source; the update log is appended (save_update_log in
the trace) only where the source calls saveUpdateLog. -/
def updateKnowledgeBase (cfg : UpdConfig) (env : UpdEnv) (pi : ProcessingResult)
    (history : List UpdateHistoryEntry) (now : Int) : UpdateOutcome :=
  let v := validateUpdate pi history now cfg.updatesPerHourLimit
  if !v.isValid then
    { success := false, status := "validation_failed", trace := ["validation"], errors := v.errors }
  else if cfg.requireHumanApproval && !env.approvedOption then
    { success := true, status := "awaiting_approval"
      trace := ["validation", "approval_request"], errors := [] }
  else
    let backupTrace := if cfg.backupEnabled then ["backup"] else []
    if cfg.backupEnabled && !env.backupSucceeds then
      { success := false, status := "backup_failed"
        trace := ["validation"] ++ backupTrace, errors := [] }
    else
      let hasConflicts := (pi.conflictAnalysis.map (fun ca => ca.hasConflicts)).getD false
      let conflictTrace := if hasConflicts then ["conflict_resolution"] else []
      if hasConflicts && !(resolveConflicts cfg.conflictResolution).1 then
        { success := false, status := "conflict_resolution_failed"
          trace := ["validation"] ++ backupTrace ++ conflictTrace, errors := [] }
      else if !env.vectorSucceeds then
        { success := false, status := "vector_db_failed"
          trace := ["validation"] ++ backupTrace ++ conflictTrace ++ ["vector_db_update"]
          errors := [] }
      else
        { success := true, status := "completed"
          trace := ["validation"] ++ backupTrace ++ conflictTrace ++
            ["vector_db_update", "metadata_update", "save_update_log"]
          errors := [] }

/-! ## KnowledgeGapDetector

The heuristic pass is fully translated.  The detailed LLM pass is an external
call: its parsed verdict is supplied as an environment value (some analysis),
with none standing for a failed call, in which case the source substitutes
its deterministic fallback analysis. -/

structure GapAnalysis where
  hasGap : Bool
  confidence : ℚ
  gapType : String := ""
  missingInfo : String := ""
  suggestedQueries : List String := []
  expertContactNeeded : Bool := false
  quickCheck : Bool := false
  deriving Repr, DecidableEq

structure RetrievedDoc where
  similarity : ℚ
  createdAt : Option Int := none
  updatedAt : Option Int := none
  deriving Repr, DecidableEq

/-- KnowledgeGapDetector.generateSuggestedQueries. -/
def generateSuggestedQueries (query : String) : List String :=
  let base := [query ++ " policy", query ++ " procedure", query ++ " guide"]
  let words := query.splitOn " "
  let broader :=
    if 2 < words.length then [String.intercalate " " words.dropLast] else []
  (base ++ broader ++
    ["HR " ++ query, "IT " ++ query, "Admin " ++ query, "Finance " ++ query]).take 5

/-- KnowledgeGapDetector.isDateSensitiveQuery. -/
def isDateSensitiveQuery (query : String) : Bool :=
  ["current", "latest", "recent", "now", "today", "this year", "new",
   "updated", "changes", "status", "active", "available", "open"].any
    (fun k => containsCI k query)

/-- KnowledgeGapDetector.isDocumentRecent: the document timestamp must exist
and be after the six-months-ago cutoff (computed from the clock outside the
model and passed in). -/
def isDocumentRecent (ts : Option Int) (sixMonthsAgo : Int) : Bool :=
  match ts with
  | none => false
  | some t => sixMonthsAgo < t

/-- Maximum similarity of a non-empty retrieved set, head and tail. -/
def maxSimilarity (d : RetrievedDoc) (ds : List RetrievedDoc) : ℚ :=
  ds.foldl (fun m x => max m x.similarity) d.similarity

/-- KnowledgeGapDetector.performQuickGapCheck. -/
def performQuickGapCheck (simThreshold : ℚ) (sixMonthsAgo : Int)
    (query : String) (docs : List RetrievedDoc) : GapAnalysis :=
  match docs with
  | [] =>
    { hasGap := true
      confidence := 95 / 100
      gapType := "no_documents"
      missingInfo := "No relevant documents found in the knowledge base"
      suggestedQueries := generateSuggestedQueries query
      expertContactNeeded := true
      quickCheck := true }
  | d :: ds =>
    if maxSimilarity d ds < simThreshold then
      { hasGap := true
        confidence := 8 / 10
        gapType := "low_relevance"
        missingInfo := "Retrieved documents have low relevance to the query"
        suggestedQueries := generateSuggestedQueries query
        expertContactNeeded := true
        quickCheck := true }
    else if isDateSensitiveQuery query &&
        !((d :: ds).any (fun x => isDocumentRecent (x.createdAt.orElse (fun _ => x.updatedAt)) sixMonthsAgo)) then
      { hasGap := true
        confidence := 75 / 100
        gapType := "outdated_info"
        missingInfo := "Query requires recent information but only old documents were found"
        suggestedQueries := ["Recent " ++ query, "Latest " ++ query, "Current " ++ query]
        expertContactNeeded := true
        quickCheck := true }
    else
      { hasGap := false
        confidence := 8 / 10
        quickCheck := true }

structure AnalysisOutcome where
  analysis : GapAnalysis
  detailedInvoked : Bool
  retrievedDocsCount : Option Nat := none
  avgSimilarity : Option ℚ := none
  deriving Repr, DecidableEq

/-- Fallback analysis substituted when the detailed LLM call fails. -/
def detailedAnalysisFallback (query : String) (docs : List RetrievedDoc) : GapAnalysis :=
  { hasGap := docs.isEmpty
    confidence := 1 / 2
    gapType := "analysis_error"
    missingInfo := "Could not perform detailed analysis"
    suggestedQueries := generateSuggestedQueries query
    expertContactNeeded := false }

/-- KnowledgeGapDetector.analyzeKnowledgeGap: any heuristic hit short-circuits
and skips the model pass; otherwise the detailed verdict is decorated with
retrieval metadata.  The boolean records whether the model pass ran. -/
def analyzeKnowledgeGap (simThreshold : ℚ) (sixMonthsAgo : Int)
    (detailedEnv : Option GapAnalysis) (query : String)
    (docs : List RetrievedDoc) : AnalysisOutcome :=
  let quick := performQuickGapCheck simThreshold sixMonthsAgo query docs
  if quick.hasGap then
    { analysis := quick, detailedInvoked := false }
  else
    let detailed :=
      match detailedEnv with
      | some a => a
      | none => detailedAnalysisFallback query docs
    { analysis := detailed
      detailedInvoked := true
      retrievedDocsCount := some docs.length
      avgSimilarity := some
        (if docs.length ≠ 0 then
          (docs.map (fun x => x.similarity)).sum / (docs.length : ℚ)
        else 0) }

/-! ## AgentWorkflowManager: strategy selection -/

structure Strategy where
  stratType : String
  priority : String
  timeoutMs : Nat
  fallback : Option String := none
  updateFocus : Bool := false
  completionFocus : Bool := false
  deriving Repr, DecidableEq

/-- AgentWorkflowManager.determineWorkflowStrategy. -/
def determineWorkflowStrategy (ga : GapAnalysis) : Strategy :=
  if ga.expertContactNeeded = true ∧ (8 : ℚ) / 10 < ga.confidence then
    { stratType := "expert_contact", priority := "high", timeoutMs := 2 * 60 * 60 * 1000 }
  else if ga.gapType = "no_documents" then
    { stratType := "document_search", priority := "medium", timeoutMs := 30 * 60 * 1000
      fallback := some "expert_contact" }
  else if ga.gapType = "outdated_info" then
    { stratType := "expert_contact", priority := "medium", timeoutMs := 4 * 60 * 60 * 1000
      updateFocus := true }
  else if ga.gapType = "unclear_question" then
    { stratType := "clarification", priority := "low", timeoutMs := 1 * 60 * 60 * 1000 }
  else if ga.gapType = "partial_info" then
    { stratType := "expert_contact", priority := "medium", timeoutMs := 3 * 60 * 60 * 1000
      completionFocus := true }
  else
    { stratType := "escalation", priority := "low", timeoutMs := 24 * 60 * 60 * 1000 }

/-- The strategy table exactly as the specification words it, in the
specification's evaluation order: expert contact needed with confidence above
0.8 first (high priority, 2 hours), then no_documents to document search with
expert-contact fallback (30 minutes), outdated_info to expert contact
(4 hours), unclear_question to clarification (1 hour), partial_info to expert
contact (3 hours), and escalation (24 hours) for every other gap. -/
def specStrategyTable (ga : GapAnalysis) : Strategy :=
  if ga.expertContactNeeded = true ∧ (8 : ℚ) / 10 < ga.confidence then
    { stratType := "expert_contact", priority := "high", timeoutMs := 2 * 60 * 60 * 1000 }
  else if ga.gapType = "no_documents" then
    { stratType := "document_search", priority := "medium", timeoutMs := 30 * 60 * 1000
      fallback := some "expert_contact" }
  else if ga.gapType = "outdated_info" then
    { stratType := "expert_contact", priority := "medium", timeoutMs := 4 * 60 * 60 * 1000
      updateFocus := true }
  else if ga.gapType = "unclear_question" then
    { stratType := "clarification", priority := "low", timeoutMs := 1 * 60 * 60 * 1000 }
  else if ga.gapType = "partial_info" then
    { stratType := "expert_contact", priority := "medium", timeoutMs := 3 * 60 * 60 * 1000
      completionFocus := true }
  else
    { stratType := "escalation", priority := "low", timeoutMs := 24 * 60 * 60 * 1000 }

/-! ## AgentWorkflowManager: workflow execution and archival

The manager state holds the active map, the archive history and an ordered
log of the outbound dispatch attempts (initial_request and follow_up sends
through the communication channel).  The contact lookup, the channel
availability and the send results are environment inputs. -/

structure WorkflowStep where
  stepName : String
  stepStatus : String
  details : String
  deriving Repr, DecidableEq

structure WorkflowRec where
  id : String
  query : String
  gapAnalysis : GapAnalysis
  status : String
  steps : List WorkflowStep
  strategy : Option Strategy := none
  monitorArmed : Bool := false
  responseReceived : Bool := false
  deriving Repr, DecidableEq

structure WMState where
  active : List (String × WorkflowRec)
  history : List WorkflowRec
  dispatches : List String
  deriving Repr, DecidableEq

def emptyWMState : WMState := { active := [], history := [], dispatches := [] }

structure WMEnv where
  expertFound : Bool
  channelAvailable : Bool
  sendSucceeds : Bool
  notifySucceeds : Bool
  extractEnv : Option StructuredInfo := none
  deriving Repr, DecidableEq

/-- AgentWorkflowManager.addWorkflowStep. -/
def addStep (wf : WorkflowRec) (name stepStatus details : String) : WorkflowRec :=
  { wf with steps := wf.steps ++ [{ stepName := name, stepStatus := stepStatus, details := details }] }

/-- AgentWorkflowManager.executeExpertContactWorkflow: locate an expert, send
the information request, and on success arm the response monitor.  A dispatch
attempt is logged whenever a communication method exists for the expert. -/
def executeExpertContactWorkflow (env : WMEnv) (wf : WorkflowRec)
    (st : WMState) : WorkflowRec × WMState × Bool :=
  if !env.expertFound then
    (addStep wf "locating_expert" "failed" "No suitable expert found", st, false)
  else
    let wf1 := addStep wf "locating_expert" "completed" "Found expert"
    let wf2 := addStep wf1 "sending_request" "in_progress" ""
    if !env.channelAvailable then
      (addStep wf2 "sending_request" "failed" "No available communication method for expert",
       st, false)
    else
      let st1 := { st with dispatches := st.dispatches ++ ["initial_request"] }
      if !env.sendSucceeds then
        (addStep wf2 "sending_request" "failed" "send error", st1, false)
      else
        let wf3 := addStep wf2 "sending_request" "completed" "Request sent successfully"
        let wf4 := addStep wf3 "awaiting_response" "in_progress" ""
        ({ wf4 with monitorArmed := true }, st1, true)

/-- AgentWorkflowManager.performExpandedSearch is a placeholder in the source
and always reports that nothing was found. -/
def performExpandedSearchFound : Bool := false

/-- AgentWorkflowManager.executeDocumentSearchWorkflow: the expanded search
never finds documents (placeholder), after which the configured fallback to
expert contact runs. -/
def executeDocumentSearchWorkflow (env : WMEnv) (wf : WorkflowRec)
    (st : WMState) : WorkflowRec × WMState × Bool :=
  let wf1 := addStep wf "expanding_search" "in_progress" ""
  let wf2 := addStep wf1 "expanding_search" "completed" "No additional documents found"
  if (wf.strategy.map (fun s => s.fallback)).getD none = some "expert_contact" then
    let wf3 := addStep wf2 "fallback_to_expert" "in_progress" ""
    let r := executeExpertContactWorkflow env wf3 st
    (addStep r.1 "fallback_to_expert" (if r.2.2 then "completed" else "failed") "", r.2.1, r.2.2)
  else
    (wf2, st, false)

/-- AgentWorkflowManager.executeEscalationWorkflow: log the escalation and
notify administrators; notification failure does not fail the workflow. -/
def executeEscalationWorkflow (env : WMEnv) (wf : WorkflowRec)
    (st : WMState) : WorkflowRec × WMState × Bool :=
  let wf1 := addStep wf "logging_escalation" "in_progress" ""
  let wf2 := addStep wf1 "logging_escalation" "completed" "Escalation logged for human review"
  let wf3 := addStep wf2 "notifying_admins" "in_progress" ""
  let wf4 := addStep wf3 "notifying_admins"
    (if env.notifySucceeds then "completed" else "failed") ""
  (wf4, st, true)

/-- AgentWorkflowManager.executeClarificationWorkflow: generate clarification
suggestions; always succeeds. -/
def executeClarificationWorkflow (wf : WorkflowRec)
    (st : WMState) : WorkflowRec × WMState × Bool :=
  (addStep wf "generating_suggestions" "completed" "Generated clarification suggestions",
   st, true)

/-- AgentWorkflowManager.executeDefaultWorkflow. -/
def executeDefaultWorkflow (wf : WorkflowRec)
    (st : WMState) : WorkflowRec × WMState × Bool :=
  (addStep wf "default_handling" "completed" "Applied default knowledge gap handling",
   st, true)

/-- AgentWorkflowManager.archiveWorkflow: remove the workflow from the active
set, append it to the bounded history, and persist it. -/
def archiveWorkflow (wf : WorkflowRec) (st : WMState) : WMState :=
  let hist := st.history ++ [wf]
  { st with
    active := st.active.filter (fun p => p.1 ≠ wf.id)
    history := if 1000 < hist.length then hist.drop 1 else hist }

/-- AgentWorkflowManager.triggerWorkflow: register the workflow as active,
select the strategy, execute it, mark the workflow completed or failed from
the execution result, and archive it before returning.  Returns the updated
state, the archived workflow record and the execution result. -/
def triggerWorkflow (env : WMEnv) (wid query : String) (ga : GapAnalysis)
    (st : WMState) : WMState × WorkflowRec × Bool :=
  let wf0 : WorkflowRec :=
    { id := wid, query := query, gapAnalysis := ga, status := "initiated", steps := [] }
  let st0 := { st with active := st.active ++ [(wid, wf0)] }
  let strat := determineWorkflowStrategy ga
  let wf1 := { wf0 with strategy := some strat }
  let r :=
    if strat.stratType = "expert_contact" then
      executeExpertContactWorkflow env wf1 st0
    else if strat.stratType = "document_search" then
      executeDocumentSearchWorkflow env wf1 st0
    else if strat.stratType = "escalation" then
      executeEscalationWorkflow env wf1 st0
    else if strat.stratType = "clarification" then
      executeClarificationWorkflow wf1 st0
    else
      executeDefaultWorkflow wf1 st0
  let wf3 := { r.1 with status := if r.2.2 then "completed" else "failed" }
  (archiveWorkflow wf3 r.2.1, wf3, r.2.2)

/-- AgentWorkflowManager.handleResponseTimeout: fires when the armed timer
expires with no reply; it looks the workflow up in the active set and, when
found, records the timeout step and sends one follow-up through the same
channel.  When the workflow is no longer active, nothing happens. -/
def handleResponseTimeout (env : WMEnv) (wid : String) (st : WMState) : WMState :=
  match st.active.find? (fun p => p.1 = wid) with
  | none => st
  | some (_, wf) =>
    let wf1 := addStep wf "response_timeout" "failed" "No response received within timeout"
    { st with
      active := st.active.map (fun p => if p.1 = wid then (p.1, wf1) else p)
      dispatches :=
        if env.channelAvailable then st.dispatches ++ ["follow_up"] else st.dispatches }

/-- AgentWorkflowManager.processResponse: looks the workflow up in the active
set (throwing when absent), runs the information processor on the reply, and
on success marks the workflow response_received. -/
def processResponse (env : WMEnv) (resp : ExpertResponse)
    (st : WMState) : WMState × Except String Bool :=
  match st.active.find? (fun p => p.1 = resp.workflowId) with
  | none => (st, Except.error ("Workflow " ++ resp.workflowId ++ " not found"))
  | some (_, wf) =>
    let wf1 := addStep wf "processing_response" "in_progress" ""
    let pinfo := processReceivedInformation env.extractEnv resp
    if pinfo.success then
      let wf2 := addStep wf1 "processing_response" "completed"
        "Information processed and ready for integration"
      let wf3 := { wf2 with status := "response_received", responseReceived := true }
      ({ st with active := st.active.map (fun p => if p.1 = resp.workflowId then (p.1, wf3) else p) },
       Except.ok true)
    else
      let wf2 := addStep wf1 "processing_response" "failed" "Failed to process response"
      ({ st with active := st.active.map (fun p => if p.1 = resp.workflowId then (p.1, wf2) else p) },
       Except.ok false)

/-- Number of follow-up dispatches recorded in the state. -/
def countFollowUps (st : WMState) : Nat :=
  (st.dispatches.filter (fun d => d = "follow_up")).length

/-! ## Concrete fixtures used by witnesses and counterexamples -/

/-- A gap analysis that selects the expert-contact strategy with high
priority (expert contact needed, confidence 0.9). -/
def gaExpert : GapAnalysis :=
  { hasGap := true
    confidence := 9 / 10
    gapType := "partial_info"
    missingInfo := "missing detail"
    suggestedQueries := []
    expertContactNeeded := true }

/-- Environment in which an expert is found and every send succeeds. -/
def envAllOk : WMEnv :=
  { expertFound := true
    channelAvailable := true
    sendSucceeds := true
    notifySucceeds := true }

def c1Query : String := "where are the printer settings"

/-- Triggering an expert-contact workflow from an empty manager state. -/
def c1Result : WMState × WorkflowRec × Bool :=
  triggerWorkflow envAllOk "wf-1" c1Query gaExpert emptyWMState

/-- The manager state after the response timer for workflow wf-2 fires with
no reply having arrived. -/
def timeoutScenario (env : WMEnv) (wid query : String) (ga : GapAnalysis) : WMState :=
  handleResponseTimeout env wid (triggerWorkflow env wid query ga emptyWMState).1

def c2State : WMState := timeoutScenario envAllOk "wf-2" c1Query gaExpert

/-- A structured extraction with confidence 0.2, below the 0.3 hard floor. -/
def lowConfSI : StructuredInfo :=
  { title := "guest network"
    summary := "short summary"
    mainContent := "main body"
    category := "IT"
    keywords := []
    procedures := []
    links := []
    confidence := 2 / 10 }

def okValidation : ValidationResult :=
  { isValid := true
    errors := []
    warnings := []
    characterCount := 20
    wordCount := 4 }

/-- A processed expert reply whose extraction confidence is 0.2. -/
def lowConfPI : ProcessingResult :=
  { status := "completed"
    success := true
    validation := some okValidation
    extraction := some { success := true, structuredInfo := some lowConfSI, extractionMethod := "llm" }
    documentChunks := some [{ content := "main body", contentType := "expert_response" }]
    conflictAnalysis := some { hasConflicts := false } }

/-- The same processed reply with an acceptable confidence of 0.9. -/
def goodPI : ProcessingResult :=
  { lowConfPI with
    extraction := some
      { success := true
        structuredInfo := some { lowConfSI with confidence := 9 / 10 }
        extractionMethod := "llm" } }

/-- Updater configuration with approval off, backup on and the configured
rate limit of ten updates per hour. -/
def updCfgFixture : UpdConfig :=
  { requireHumanApproval := false
    backupEnabled := true
    conflictResolution := "human_review"
    updatesPerHourLimit := updatesPerHourConfig }

def updEnvFixture : UpdEnv :=
  { approvedOption := false
    backupSucceeds := true
    vectorSucceeds := true }

/-- Ten history entries recorded at millisecond 3600000. -/
def fullHourHistory : List UpdateHistoryEntry :=
  List.replicate 10 { requestedAt := (3600000 : Int) }

def c9Text : String := "You can reach me at john.doe@example.com anytime"

def c10Reply : String := "Use the guest network, password is posted at reception"

def c10Response : ExpertResponse :=
  { requestId := "req-10"
    workflowId := "wf-10"
    originalQuery := "What is the WiFi password?"
    content := c10Reply }

/-! ## Helper lemmas -/

/-- A validation whose processed info is flagged unsuccessful fails. -/
theorem validateUpdate_not_successful (pi : ProcessingResult)
    (history : List UpdateHistoryEntry) (now : Int) (lim : Nat)
    (h : pi.success = false) :
    (validateUpdate pi history now lim).isValid = false := by
  simp [validateUpdate, h]

/-- A validation whose extraction confidence is below 0.3 fails. -/
theorem validateUpdate_low_confidence (pi : ProcessingResult)
    (history : List UpdateHistoryEntry) (now : Int) (lim : Nat)
    (ex : ExtractionResult) (si : StructuredInfo)
    (hex : pi.extraction = some ex) (hsi : ex.structuredInfo = some si)
    (hconf : si.confidence < 3 / 10) :
    (validateUpdate pi history now lim).isValid = false := by
  simp [validateUpdate, hex, hsi, hconf]

/-- When at least the limit of updates is within the rolling hour, the
rate-limit error is reported and validation fails. -/
theorem validateUpdate_rate_limited (pi : ProcessingResult)
    (history : List UpdateHistoryEntry) (now : Int) (lim : Nat)
    (hr : lim ≤ recentUpdatesCount history now) :
    (validateUpdate pi history now lim).isValid = false ∧
    "Rate limit exceeded: too many updates in the last hour" ∈
      (validateUpdate pi history now lim).errors := by
  simp [validateUpdate, hr]

/-- A failed validation short-circuits updateKnowledgeBase. -/
theorem updateKnowledgeBase_invalid (cfg : UpdConfig) (env : UpdEnv)
    (pi : ProcessingResult) (history : List UpdateHistoryEntry) (now : Int)
    (h : (validateUpdate pi history now cfg.updatesPerHourLimit).isValid = false) :
    updateKnowledgeBase cfg env pi history now =
      { success := false
        status := "validation_failed"
        trace := ["validation"]
        errors := (validateUpdate pi history now cfg.updatesPerHourLimit).errors } := by
  simp [updateKnowledgeBase, h]

/-- executeExpertContactWorkflow leaves the active set and the history
untouched and records at most the one initial dispatch. -/
theorem execExpert_state (env : WMEnv) (wf : WorkflowRec) (st : WMState) :
    (executeExpertContactWorkflow env wf st).2.1.active = st.active ∧
    (executeExpertContactWorkflow env wf st).2.1.history = st.history ∧
    ((executeExpertContactWorkflow env wf st).2.1.dispatches = st.dispatches ∨
     (executeExpertContactWorkflow env wf st).2.1.dispatches = st.dispatches ++ ["initial_request"]) := by
  obtain ⟨ef, ca, ss, ns, ee⟩ := env
  cases ef <;> cases ca <;> cases ss <;> simp [executeExpertContactWorkflow]

/-! ## Claim theorems -/

/-- The expert-contact high-priority strategy that gaExpert selects. -/
theorem gaExpert_strategy :
    determineWorkflowStrategy gaExpert =
      { stratType := "expert_contact", priority := "high", timeoutMs := 2 * 60 * 60 * 1000 } := by
  unfold determineWorkflowStrategy
  exact if_pos ⟨rfl, by norm_num [gaExpert]⟩

/-- Triggering any workflow whose strategy is expert_contact from the empty
state archives it immediately: the active set is empty on return, the history
holds exactly the returned record, at most one dispatch was attempted and the
recorded status is already terminal (completed or failed). -/
theorem trigger_expert_shape (env : WMEnv) (wid query : String) (ga : GapAnalysis)
    (hs : (determineWorkflowStrategy ga).stratType = "expert_contact") :
    (triggerWorkflow env wid query ga emptyWMState).1.active = [] ∧
    (triggerWorkflow env wid query ga emptyWMState).1.history =
      [(triggerWorkflow env wid query ga emptyWMState).2.1] ∧
    ((triggerWorkflow env wid query ga emptyWMState).1.dispatches = [] ∨
     (triggerWorkflow env wid query ga emptyWMState).1.dispatches = ["initial_request"]) ∧
    ((triggerWorkflow env wid query ga emptyWMState).2.1.status = "completed" ∨
     (triggerWorkflow env wid query ga emptyWMState).2.1.status = "failed") := by
  obtain ⟨ef, ca, ss, ns, ee⟩ := env
  cases ef <;> cases ca <;> cases ss <;>
    simp [triggerWorkflow, hs, executeExpertContactWorkflow, archiveWorkflow,
      emptyWMState, addStep]

/-- Claim C1.  At the failing input (an expert-contact workflow whose request
dispatch succeeds), triggerWorkflow gives the workflow the terminal status
completed and archives it, removing it from the active set, while the
workflow is still awaiting the expert response (its monitor is armed and no
response has been received); the subsequent processResponse cannot find the
workflow and reports the lookup error.  This contradicts the claim that a
workflow still awaiting an expert response is not yet in a terminal status
and that archival happens atomically with the true final status. -/
theorem c1_workflow_archived_while_awaiting_response :
    c1Result.2.1.status = "completed" ∧
    c1Result.2.1.status ∈ (["completed", "failed", "timed_out", "escalated"] : List String) ∧
    c1Result.2.1.monitorArmed = true ∧
    c1Result.2.1.responseReceived = false ∧
    c1Result.1.active = [] ∧
    c1Result.1.history = [c1Result.2.1] ∧
    (processResponse envAllOk
      { requestId := "req-1"
        workflowId := "wf-1"
        originalQuery := c1Query
        content := "The printer settings live in the admin portal." }
      c1Result.1).2 = Except.error "Workflow wf-1 not found" := by
  have hq := gaExpert_strategy
  have ha : c1Result.1.active = [] := by
    simp [c1Result, triggerWorkflow, hq, executeExpertContactWorkflow, envAllOk,
      emptyWMState, archiveWorkflow, addStep]
  refine ⟨?_, ?_, ?_, ?_, ha, ?_, ?_⟩
  · simp [c1Result, triggerWorkflow, hq, executeExpertContactWorkflow, envAllOk,
      emptyWMState, archiveWorkflow, addStep]
  · simp [c1Result, triggerWorkflow, hq, executeExpertContactWorkflow, envAllOk,
      emptyWMState, archiveWorkflow, addStep]
  · simp [c1Result, triggerWorkflow, hq, executeExpertContactWorkflow, envAllOk,
      emptyWMState, archiveWorkflow, addStep]
  · simp [c1Result, triggerWorkflow, hq, executeExpertContactWorkflow, envAllOk,
      emptyWMState, archiveWorkflow, addStep]
  · simp [c1Result, triggerWorkflow, hq, executeExpertContactWorkflow, envAllOk,
      emptyWMState, archiveWorkflow, addStep]
  · unfold processResponse
    rw [ha]
    rfl

/-- Claim C2 (amended).  When the response timer fires for an expert-contact
workflow, no follow-up is ever dispatched: the workflow was archived and
removed from the active set at trigger time, so handleResponseTimeout finds
nothing; the dispatch log is unchanged and stays at one entry at most, and
the workflow record never carries a timed_out status. -/
theorem c2_timeout_sends_no_follow_up (env : WMEnv) (wid query : String) (ga : GapAnalysis)
    (hs : (determineWorkflowStrategy ga).stratType = "expert_contact") :
    countFollowUps (timeoutScenario env wid query ga) = 0 ∧
    (timeoutScenario env wid query ga).dispatches =
      (triggerWorkflow env wid query ga emptyWMState).1.dispatches ∧
    (timeoutScenario env wid query ga).dispatches.length ≤ 1 ∧
    (triggerWorkflow env wid query ga emptyWMState).2.1.status ≠ "timed_out" := by
  obtain ⟨ha, hh, hd, hst⟩ := trigger_expert_shape env wid query ga hs
  have hto : timeoutScenario env wid query ga =
      (triggerWorkflow env wid query ga emptyWMState).1 := by
    unfold timeoutScenario handleResponseTimeout
    rw [ha]
    simp
  refine ⟨?_, by rw [hto], ?_, ?_⟩
  · rw [hto]
    rcases hd with h | h <;> simp [countFollowUps, h]
  · rw [hto]
    rcases hd with h | h <;> simp [h]
  · rcases hst with h | h <;> simp [h]

/-- Witness for c2_timeout_sends_no_follow_up at the concrete expert-contact
scenario. -/
theorem c2_timeout_sends_no_follow_up_witness :
    countFollowUps (timeoutScenario envAllOk "wf-2" c1Query gaExpert) = 0 ∧
    (timeoutScenario envAllOk "wf-2" c1Query gaExpert).dispatches =
      (triggerWorkflow envAllOk "wf-2" c1Query gaExpert emptyWMState).1.dispatches ∧
    (timeoutScenario envAllOk "wf-2" c1Query gaExpert).dispatches.length ≤ 1 ∧
    (triggerWorkflow envAllOk "wf-2" c1Query gaExpert emptyWMState).2.1.status ≠ "timed_out" :=
  c2_timeout_sends_no_follow_up envAllOk "wf-2" c1Query gaExpert (by rw [gaExpert_strategy])

/-- Claim C2, counterexample.  For a never-answered expert-contact workflow
the code dispatches zero follow-ups, not retryAttempts = 3 of them: the only
dispatch ever made is the initial request, and the archived workflow carries
the status completed, never timed_out. -/
theorem c2_counterexample_no_retry_follow_ups :
    countFollowUps c2State = 0 ∧
    retryAttemptsConfig = 3 ∧
    countFollowUps c2State ≠ retryAttemptsConfig ∧
    c2State.dispatches = ["initial_request"] ∧
    c2State.history.map (fun w => w.status) = ["completed"] := by
  have hq := gaExpert_strategy
  refine ⟨?_, rfl, ?_, ?_, ?_⟩ <;>
    simp [c2State, timeoutScenario, triggerWorkflow, hq, executeExpertContactWorkflow,
      envAllOk, emptyWMState, archiveWorkflow, addStep, handleResponseTimeout,
      countFollowUps, retryAttemptsConfig]

/-- Claim C3.  Whenever the extraction confidence of the processed
information is below 0.3, updateKnowledgeBase terminates at the validation
step with a validation failure: the trace holds only the validation step, so
neither the backup nor the vector-database commit is executed (and in every
run validation precedes backup, which precedes the commit). -/
theorem c3_low_confidence_rejected (cfg : UpdConfig) (env : UpdEnv)
    (pi : ProcessingResult) (history : List UpdateHistoryEntry) (now : Int)
    (ex : ExtractionResult) (si : StructuredInfo)
    (hex : pi.extraction = some ex) (hsi : ex.structuredInfo = some si)
    (hconf : si.confidence < 3 / 10) :
    (updateKnowledgeBase cfg env pi history now).status = "validation_failed" ∧
    (updateKnowledgeBase cfg env pi history now).success = false ∧
    (updateKnowledgeBase cfg env pi history now).trace = ["validation"] ∧
    "backup" ∉ (updateKnowledgeBase cfg env pi history now).trace ∧
    "vector_db_update" ∉ (updateKnowledgeBase cfg env pi history now).trace := by
  have h := validateUpdate_low_confidence pi history now cfg.updatesPerHourLimit ex si hex hsi hconf
  rw [updateKnowledgeBase_invalid cfg env pi history now h]
  refine ⟨rfl, rfl, rfl, by simp, by simp⟩

/-- Witness for c3_low_confidence_rejected at the confidence-0.2 fixture. -/
theorem c3_low_confidence_rejected_witness :
    (updateKnowledgeBase updCfgFixture updEnvFixture lowConfPI [] 0).status = "validation_failed" ∧
    (updateKnowledgeBase updCfgFixture updEnvFixture lowConfPI [] 0).success = false ∧
    (updateKnowledgeBase updCfgFixture updEnvFixture lowConfPI [] 0).trace = ["validation"] ∧
    "backup" ∉ (updateKnowledgeBase updCfgFixture updEnvFixture lowConfPI [] 0).trace ∧
    "vector_db_update" ∉ (updateKnowledgeBase updCfgFixture updEnvFixture lowConfPI [] 0).trace :=
  c3_low_confidence_rejected updCfgFixture updEnvFixture lowConfPI [] 0
    { success := true, structuredInfo := some lowConfSI, extractionMethod := "llm" }
    lowConfSI rfl rfl (by norm_num [lowConfSI])

/-- Claim C4, counterexample.  An update rejected at validation reaches the
terminal status validation_failed, yet updateKnowledgeBase returns without
appending it to the update log: save_update_log is absent from the trace. -/
theorem c4_counterexample_failed_update_not_logged :
    (updateKnowledgeBase updCfgFixture updEnvFixture lowConfPI [] 0).status = "validation_failed" ∧
    (updateKnowledgeBase updCfgFixture updEnvFixture lowConfPI [] 0).status ≠ "completed" ∧
    "save_update_log" ∉ (updateKnowledgeBase updCfgFixture updEnvFixture lowConfPI [] 0).trace := by
  have h := validateUpdate_low_confidence lowConfPI [] 0 updCfgFixture.updatesPerHourLimit
    { success := true, structuredInfo := some lowConfSI, extractionMethod := "llm" }
    lowConfSI rfl rfl (by norm_num [lowConfSI])
  rw [updateKnowledgeBase_invalid updCfgFixture updEnvFixture lowConfPI [] 0 h]
  refine ⟨rfl, by simp, by simp⟩

/-- Claim C4 (amended).  updateKnowledgeBase appends to the update log
exactly on the completed path: for every input, save_update_log appears in
the executed trace if and only if the terminal status is completed; every
failure path (validation, backup, conflict resolution, vector-database
commit) and the awaiting-approval path return without appending. -/
theorem c4_update_log_appended_only_on_completion (cfg : UpdConfig) (env : UpdEnv)
    (pi : ProcessingResult) (history : List UpdateHistoryEntry) (now : Int) :
    ("save_update_log" ∈ (updateKnowledgeBase cfg env pi history now).trace ↔
      (updateKnowledgeBase cfg env pi history now).status = "completed") := by
  obtain ⟨rha, rbe, rcr, rlim⟩ := cfg
  obtain ⟨ao, bs, vs⟩ := env
  by_cases h1 : (validateUpdate pi history now rlim).isValid = true <;>
    by_cases h2 : (pi.conflictAnalysis.map (fun ca => ca.hasConflicts)).getD false = true <;>
      by_cases h3 : (resolveConflicts rcr).1 = true <;>
        cases rha <;> cases rbe <;> cases ao <;> cases bs <;> cases vs <;>
          simp_all [updateKnowledgeBase]

/-- Claim C5.  Zero retrieved neighbors short-circuit the heuristic pass: the
analysis reports a gap of type no_documents with confidence 0.95 (hence at
least 0.9) and the model-assisted pass is not invoked. -/
theorem c5_no_documents_short_circuit (simThreshold : ℚ) (sixMonthsAgo : Int)
    (detailedEnv : Option GapAnalysis) (query : String) :
    (analyzeKnowledgeGap simThreshold sixMonthsAgo detailedEnv query []).analysis.hasGap = true ∧
    (analyzeKnowledgeGap simThreshold sixMonthsAgo detailedEnv query []).analysis.gapType = "no_documents" ∧
    (analyzeKnowledgeGap simThreshold sixMonthsAgo detailedEnv query []).analysis.confidence = 95 / 100 ∧
    (9 : ℚ) / 10 ≤ (analyzeKnowledgeGap simThreshold sixMonthsAgo detailedEnv query []).analysis.confidence ∧
    (analyzeKnowledgeGap simThreshold sixMonthsAgo detailedEnv query []).detailedInvoked = false := by
  refine ⟨rfl, rfl, rfl, ?_, rfl⟩
  norm_num [analyzeKnowledgeGap, performQuickGapCheck]

/-- Claim C6.  A non-empty retrieved set whose maximum similarity is below
the configured threshold is classified low_relevance with confidence 0.8 by
the heuristic pass, and the model-assisted pass is not invoked. -/
theorem c6_low_relevance_short_circuit (simThreshold : ℚ) (sixMonthsAgo : Int)
    (detailedEnv : Option GapAnalysis) (query : String)
    (d : RetrievedDoc) (ds : List RetrievedDoc)
    (hmax : maxSimilarity d ds < simThreshold) :
    (analyzeKnowledgeGap simThreshold sixMonthsAgo detailedEnv query (d :: ds)).analysis.hasGap = true ∧
    (analyzeKnowledgeGap simThreshold sixMonthsAgo detailedEnv query (d :: ds)).analysis.gapType = "low_relevance" ∧
    (analyzeKnowledgeGap simThreshold sixMonthsAgo detailedEnv query (d :: ds)).analysis.confidence = 8 / 10 ∧
    (analyzeKnowledgeGap simThreshold sixMonthsAgo detailedEnv query (d :: ds)).detailedInvoked = false := by
  simp [analyzeKnowledgeGap, performQuickGapCheck, hmax]

/-- Witness for c6_low_relevance_short_circuit: one document of similarity
0.5 against the configured threshold 0.75. -/
theorem c6_low_relevance_short_circuit_witness :
    (analyzeKnowledgeGap similarityThresholdConfig 0 none "office hours"
      [{ similarity := 1 / 2 }]).analysis.hasGap = true ∧
    (analyzeKnowledgeGap similarityThresholdConfig 0 none "office hours"
      [{ similarity := 1 / 2 }]).analysis.gapType = "low_relevance" ∧
    (analyzeKnowledgeGap similarityThresholdConfig 0 none "office hours"
      [{ similarity := 1 / 2 }]).analysis.confidence = 8 / 10 ∧
    (analyzeKnowledgeGap similarityThresholdConfig 0 none "office hours"
      [{ similarity := 1 / 2 }]).detailedInvoked = false :=
  c6_low_relevance_short_circuit similarityThresholdConfig 0 none "office hours"
    { similarity := 1 / 2 } [] (by norm_num [maxSimilarity, similarityThresholdConfig])

/-- Claim C7.  determineWorkflowStrategy coincides with the strategy table as
worded by the specification, case for case and in the same evaluation
order. -/
theorem c7_strategy_selection_matches_spec_table (ga : GapAnalysis) :
    determineWorkflowStrategy ga = specStrategyTable ga := rfl

/-- Claim C8.  Once the number of updates recorded within the rolling hour
has reached the configured limit of ten, the next updateKnowledgeBase call
fails at validation with the rate-limit error, before any backup or
vector-database commit is attempted. -/
theorem c8_rate_limited_update_rejected (cfg : UpdConfig) (env : UpdEnv)
    (pi : ProcessingResult) (history : List UpdateHistoryEntry) (now : Int)
    (hl : cfg.updatesPerHourLimit = updatesPerHourConfig)
    (hr : updatesPerHourConfig ≤ recentUpdatesCount history now) :
    (updateKnowledgeBase cfg env pi history now).status = "validation_failed" ∧
    (updateKnowledgeBase cfg env pi history now).success = false ∧
    "Rate limit exceeded: too many updates in the last hour" ∈
      (updateKnowledgeBase cfg env pi history now).errors ∧
    "backup" ∉ (updateKnowledgeBase cfg env pi history now).trace ∧
    "vector_db_update" ∉ (updateKnowledgeBase cfg env pi history now).trace := by
  have hr2 : cfg.updatesPerHourLimit ≤ recentUpdatesCount history now := by
    rw [hl]
    exact hr
  have h := validateUpdate_rate_limited pi history now cfg.updatesPerHourLimit hr2
  rw [updateKnowledgeBase_invalid cfg env pi history now h.1]
  exact ⟨rfl, rfl, h.2, by simp, by simp⟩

/-- Witness for c8_rate_limited_update_rejected: ten updates recorded one
millisecond inside the rolling hour. -/
theorem c8_rate_limited_update_rejected_witness :
    (updateKnowledgeBase updCfgFixture updEnvFixture goodPI fullHourHistory 3600001).status = "validation_failed" ∧
    (updateKnowledgeBase updCfgFixture updEnvFixture goodPI fullHourHistory 3600001).success = false ∧
    "Rate limit exceeded: too many updates in the last hour" ∈
      (updateKnowledgeBase updCfgFixture updEnvFixture goodPI fullHourHistory 3600001).errors ∧
    "backup" ∉ (updateKnowledgeBase updCfgFixture updEnvFixture goodPI fullHourHistory 3600001).trace ∧
    "vector_db_update" ∉ (updateKnowledgeBase updCfgFixture updEnvFixture goodPI fullHourHistory 3600001).trace :=
  c8_rate_limited_update_rejected updCfgFixture updEnvFixture goodPI fullHourHistory 3600001
    rfl (by decide)

/-- Claim C9, counterexample.  An otherwise acceptable reply that contains an
email address is rejected: detectPII reports the email, no prohibited pattern
matches and the length is in range, yet validateInformation returns
isValid = false, because the PII finding is appended to the errors list and
not treated as a warning only. -/
theorem c9_counterexample_email_reply_rejected :
    (detectPII c9Text).hasPII = true ∧
    10 ≤ c9Text.length ∧
    c9Text.length ≤ 50000 ∧
    (checkProhibitedPatterns c9Text).hasProhibited = false ∧
    (validateInformation c9Text).isValid ≠ true ∧
    (validateInformation c9Text).warnings = ["Found potential email pattern(s)"] := by
  refine ⟨by decide, by decide, by decide, by decide, by decide, by decide⟩

/-- Claim C9 (amended).  A detected PII pattern is a hard failure: whenever
detectPII reports a finding, validateInformation returns isValid = false with
the PII error in the errors list, while the findings are also reported in the
(non-empty) warnings list. -/
theorem c9_pii_detection_is_hard_failure (s : String)
    (hp : (detectPII s).hasPII = true) :
    (validateInformation s).isValid = false ∧
    (validateInformation s).warnings = (detectPII s).warnings ∧
    (validateInformation s).warnings ≠ [] := by
  refine ⟨by simp [validateInformation, hp], rfl, ?_⟩
  intro hnil
  have hw : (detectPII s).warnings = [] := hnil
  have hdp := hp
  simp only [detectPII] at hdp hw
  rw [List.map_eq_nil_iff] at hw
  rw [hw] at hdp
  simp at hdp

/-- Witness for c9_pii_detection_is_hard_failure on a reply containing an
email address. -/
theorem c9_pii_detection_is_hard_failure_witness :
    (validateInformation "write to a@b.co for access").isValid = false ∧
    (validateInformation "write to a@b.co for access").warnings =
      (detectPII "write to a@b.co for access").warnings ∧
    (validateInformation "write to a@b.co for access").warnings ≠ [] :=
  c9_pii_detection_is_hard_failure "write to a@b.co for access" (by decide)

/-- Claim C10, counterexample.  The scenario reply matches the configured
prohibited pattern password (a hard failure), so the Response Processor does
not accept it: validateInformation rejects it even though it carries zero PII
warnings. -/
theorem c10_counterexample_reply_fails_validation :
    (checkProhibitedPatterns c10Reply).hasProhibited = true ∧
    (detectPII c10Reply).hasPII = false ∧
    (validateInformation c10Reply).warnings = [] ∧
    (validateInformation c10Reply).isValid ≠ true ∧
    (validateInformation c10Reply).errors = ["Prohibited content detected: password"] := by
  refine ⟨by decide, by decide, by decide, by decide, by decide⟩

/-- Claim C10 (amended).  Processing the scenario reply fails end to end at
the first step: processReceivedInformation returns status validation_failed
with no extraction and no document chunks, and feeding its result to
updateKnowledgeBase yields a validation failure rather than a completed
update record. -/
theorem c10_reply_rejected_before_extraction (extractEnv : Option StructuredInfo)
    (cfg : UpdConfig) (env : UpdEnv) (history : List UpdateHistoryEntry) (now : Int) :
    (processReceivedInformation extractEnv c10Response).status = "validation_failed" ∧
    (processReceivedInformation extractEnv c10Response).success = false ∧
    (processReceivedInformation extractEnv c10Response).extraction = none ∧
    (processReceivedInformation extractEnv c10Response).documentChunks = none ∧
    (updateKnowledgeBase cfg env (processReceivedInformation extractEnv c10Response)
      history now).status = "validation_failed" := by
  have hv : (validateInformation c10Response.content).isValid = false := by decide
  have hpr : processReceivedInformation extractEnv c10Response =
      { status := "validation_failed"
        validation := some (validateInformation c10Response.content)
        error := some (String.intercalate ", " (validateInformation c10Response.content).errors) } := by
    unfold processReceivedInformation
    simp [hv]
  refine ⟨by rw [hpr], by rw [hpr], by rw [hpr], by rw [hpr], ?_⟩
  have hsucc : (processReceivedInformation extractEnv c10Response).success = false := by
    rw [hpr]
  have h := validateUpdate_not_successful (processReceivedInformation extractEnv c10Response)
    history now cfg.updatesPerHourLimit hsucc
  rw [updateKnowledgeBase_invalid cfg env (processReceivedInformation extractEnv c10Response)
    history now h]

end RagImprover
